import Mathlib

/-!
A shallow embedding of the fuocore playback engine (`fuocore/engine.py`),
together with theorems about its playlist cursor algebra, deduplication,
state-change notification and status-line parsing behaviour.

Conventions of the embedding:
* Python `int` indices are modelled as `Int` (they can go negative);
  Python list subscription `xs[i]` (which supports negative indices and
  raises `IndexError` out of range) is `pyGet`.
* A Python call that can raise is modelled with `Except PyErr _` when the
  raise aborts before any relevant mutation, and with `PyOutcome`
  (mutated state plus an optional pending exception) when mutations
  happen before the raise.
* `Signal.emit` calls are counted (`songChangedEmits`) or, for the
  player's queued signals, recorded in order in `signalQueue`.
* `random.choice` results are passed in as an explicit argument `r`,
  used only in the `random` playback-mode branches.
* Track models (`fuocore/models.py`) carry `source`, `identifier` and
  `url`; the external `april.Struct` base class's `==` is modelled as
  structural field equality.
* Python `float` values produced by parsing decimal status-line fields
  are modelled exactly in `ℚ` (the concrete fields involved are finite
  decimals, which IEEE parsing represents without excess behaviour
  relevant to the stated properties).
-/

deriving instance DecidableEq for Except

/-- Python exception kinds that the embedded code can raise. -/
inductive PyErr where
  | indexError
  | typeError
  | valueError
  | attributeError
deriving DecidableEq

/-- `State` enum from `engine.py`: player state. -/
inductive State where
  | stopped
  | paused
  | playing
deriving DecidableEq

/-- `PlaybackMode` enum from `engine.py`. -/
inductive PlaybackMode where
  | one_loop
  | sequential
  | loop
  | random
deriving DecidableEq

/-- `SongModel` from `fuocore/models.py`, restricted to the fields the
engine reads: `source`, `identifier`, `url`. -/
structure SongModel where
  source : String
  identifier : String
  url : String
deriving DecidableEq

/-- Python list subscription `xs[i]`: negative indices count from the
end; out-of-range access yields `none` (an `IndexError`). -/
def pyGet {α : Type} (xs : List α) (i : Int) : Option α :=
  if 0 ≤ i then xs.get? i.toNat
  else if 0 ≤ i + (xs.length : Int) then xs.get? (i + (xs.length : Int)).toNat
  else none

/-- Python `list.insert(i, a)`: negative indices count from the end and
both directions clamp into range. -/
def pyInsert {α : Type} (xs : List α) (i : Int) (a : α) : List α :=
  let j : Nat := if i < 0 then (max (i + (xs.length : Int)) 0).toNat
                 else min i.toNat xs.length
  xs.take j ++ a :: xs.drop j

/-- Python `list.index(a)` (position of the first `==`-equal element),
`none` when absent (a `ValueError`). -/
def pyIndexOf {α : Type} [DecidableEq α] : List α → α → Option Nat
  | [], _ => none
  | x :: xs, a => if x = a then some 0 else (pyIndexOf xs a).map (· + 1)

/-- The `Playlist` object of `engine.py`: `_last_index`,
`_current_index`, `_last_song` (written by the `current_song` setter,
never initialised nor read elsewhere), `_songs`, `_playback_mode`, and a
count of `song_changed.emit()` calls. -/
structure Playlist where
  lastIndex : Option Int
  currentIndex : Option Int
  lastSong : Option SongModel
  songs : List SongModel
  playbackMode : PlaybackMode
  songChangedEmits : Nat
deriving DecidableEq

/-- Result of running a mutating method that may end in a raise: the
object state at the moment the method returns or raises, plus the
exception if one escaped. -/
structure PyOutcome where
  st : Playlist
  err : Option PyErr
deriving DecidableEq

/-- `Playlist.current_song` property: `None` when `_current_index` is
`None`, else `self._songs[self._current_index]` (which can raise
`IndexError`). -/
def Playlist.current_song (p : Playlist) : Except PyErr (Option SongModel) :=
  match p.currentIndex with
  | none => Except.ok none
  | some i =>
    match pyGet p.songs i with
    | some s => Except.ok (some s)
    | none => Except.error PyErr.indexError

/-- `Playlist.current_song` setter: select the song's existing slot if
`song in self._songs`, else insert after the current slot (or at 0);
store `self._last_song := self.current_song` (evaluated on the possibly
grown list with the old index), move the cursor, emit `song_changed`.
`_last_index` is never written. -/
def Playlist.set_current (p : Playlist) (song : SongModel) : PyOutcome :=
  let index : Int :=
    if p.songs.contains song then Int.ofNat ((pyIndexOf p.songs song).getD 0)
    else match p.currentIndex with
      | none => 0
      | some i => i + 1
  let songs2 : List SongModel :=
    if p.songs.contains song then p.songs else pyInsert p.songs index song
  let p1 : Playlist := { p with songs := songs2 }
  match p1.current_song with
  | Except.error e => ⟨p1, some e⟩
  | Except.ok cur =>
    ⟨{ p1 with
        lastSong := cur
        currentIndex := some index
        songChangedEmits := p1.songChangedEmits + 1 }, none⟩

/-- `Playlist.next`: empty list is a no-op; absent cursor goes to 0;
`one_loop`/`loop` reset a last-index cursor to 0 and then increment
unconditionally; `sequential` sets the cursor to `None` at the last
index and then still executes `self._current_index += 1`, raising
`TypeError` on `None + 1`; `random` jumps to the chosen index `r`. -/
def Playlist.next (p : Playlist) (r : Int) : PyOutcome :=
  if p.songs.isEmpty then ⟨p, none⟩
  else
    match p.currentIndex with
    | none =>
      ⟨{ p with
          currentIndex := some 0
          songChangedEmits := p.songChangedEmits + 1 }, none⟩
    | some i =>
      -- the `if self.current_song is None` test re-reads `_songs[i]`,
      -- which raises `IndexError` when the cursor is out of range
      if (pyGet p.songs i).isNone then ⟨p, some PyErr.indexError⟩
      else if p.playbackMode = PlaybackMode.one_loop ∨
              p.playbackMode = PlaybackMode.loop then
        let i1 : Int := if i = (p.songs.length : Int) - 1 then 0 else i
        ⟨{ p with
            currentIndex := some (i1 + 1)
            songChangedEmits := p.songChangedEmits + 1 }, none⟩
      else if p.playbackMode = PlaybackMode.sequential then
        if i = (p.songs.length : Int) - 1 then
          ⟨{ p with currentIndex := none }, some PyErr.typeError⟩
        else
          ⟨{ p with
              currentIndex := some (i + 1)
              songChangedEmits := p.songChangedEmits + 1 }, none⟩
      else
        ⟨{ p with
            currentIndex := some r
            songChangedEmits := p.songChangedEmits + 1 }, none⟩

/-- `Playlist.previous`: empty list returns `None`; a remembered
`_last_index` wins; an absent cursor goes to 0; `random` jumps to `r`;
otherwise decrement by one with no lower bound. Never raises. -/
def Playlist.previous (p : Playlist) (r : Int) : Playlist :=
  if p.songs.isEmpty then p
  else
    match p.lastIndex with
    | some li =>
      { p with
          currentIndex := some li
          songChangedEmits := p.songChangedEmits + 1 }
    | none =>
      match p.currentIndex with
      | none =>
        { p with
            currentIndex := some 0
            songChangedEmits := p.songChangedEmits + 1 }
      | some i =>
        if p.playbackMode = PlaybackMode.random then
          { p with
              currentIndex := some r
              songChangedEmits := p.songChangedEmits + 1 }
        else
          { p with
              currentIndex := some (i - 1)
              songChangedEmits := p.songChangedEmits + 1 }

/-- Iterate `Playlist.next`, stopping at the first escaped exception. -/
def nextIter (r : Int) : Nat → Playlist → PyOutcome
  | 0, p => ⟨p, none⟩
  | Nat.succ n, p =>
    match (p.next r).err with
    | some e => ⟨(p.next r).st, some e⟩
    | none => nextIter r n (p.next r).st

/-- Concrete tracks used by the scenario claims. -/
def sA : SongModel := ⟨"local", "a", "fuo://local/songs/a"⟩

def sB : SongModel := ⟨"local", "b", "fuo://local/songs/b"⟩

def sC : SongModel := ⟨"local", "c", "fuo://local/songs/c"⟩

/-- Signals that `Player` puts on its `_signal_queue`. The sequential
branch of `get_next_song` refers to `self.signal_playlist_finished`,
an attribute `__init__` never creates, so no playlist-finished signal
kind can ever be enqueued; the reference raises `AttributeError`. -/
inductive Sig where
  | finished
  | positionChanged
  | stateChanged
  | readyToExit
deriving DecidableEq

/-- The mpg123-backed `Player` of `engine.py`: scalar status fields,
`_last_state`/`_last_playback_mode`, the song list with its current
song, the signal queue (in arrival order), and the url last sent to the
subprocess with an `L` load command (recording what `_play` did). -/
structure Player where
  position : ℚ
  state : State
  lastState : State
  duration : ℚ
  playbackMode : PlaybackMode
  songs : List SongModel
  currentSong : Option SongModel
  signalQueue : List Sig
  loadedUrl : Option String
deriving DecidableEq

/-- `Player.__init__`: stopped, everything zeroed, `loop` mode, empty
song list, nothing playing, empty queue. -/
def playerInit : Player :=
  ⟨0, State.stopped, State.stopped, 0, PlaybackMode.loop, [], none, [], none⟩

/-- `Player.set_state`: always commit `_state`; enqueue `state_changed`
and update `_last_state` only when the value differs from
`_last_state`. -/
def Player.set_state (pl : Player) (s : State) : Player :=
  let pl1 : Player := { pl with state := s }
  if pl1.lastState ≠ s then
    { pl1 with
        signalQueue := pl1.signalQueue ++ [Sig.stateChanged]
        lastState := s }
  else pl1

/-- `Player._get_song`: scan `_songs` comparing only `identifier`;
return the argument itself on a hit, `None` otherwise. -/
def Player.get_song (pl : Player) (song : SongModel) : Option SongModel :=
  if pl.songs.any (fun m => song.identifier = m.identifier) then some song
  else none

/-- `Player.add_song`: insert or append only when `_get_song` finds no
song with the same identifier; the `insert=True` path places the song
after the current song (`list.index` raising `ValueError` when the
current song is not `==`-present). Returns whether it added. -/
def Player.add_song (pl : Player) (song : SongModel) (insert : Bool) :
    Except PyErr (Player × Bool) :=
  if (pl.get_song song).isNone then
    if insert then
      match pl.currentSong with
      | none =>
        Except.ok ({ pl with songs := pyInsert pl.songs 0 song }, true)
      | some cur =>
        match pyIndexOf pl.songs cur with
        | none => Except.error PyErr.valueError
        | some ci =>
          Except.ok
            ({ pl with songs := pyInsert pl.songs ((ci : Int) + 1) song }, true)
    else Except.ok ({ pl with songs := pl.songs ++ [song] }, true)
  else Except.ok (pl, false)

/-- `Player.play_song`: `_play(song.url)` (kill the old subprocess and
send `L <url>`, modelled by recording the url), record the current
song, then `add_song(song)`. -/
def Player.play_song (pl : Player) (song : SongModel) : Except PyErr Player :=
  let pl1 : Player :=
    { pl with
        loadedUrl := some song.url
        currentSong := some song }
  match pl1.add_song song false with
  | Except.error e => Except.error e
  | Except.ok (pl2, _) => Except.ok pl2

/-- What `get_next_song`/`get_previous_song` can return: `None`, a song
model, or — in the `loop` branch of `get_previous_song` — a bare
integer index. -/
inductive SongOrIndex where
  | noSong
  | song (s : SongModel)
  | index (i : Int)
deriving DecidableEq

/-- `Player.get_next_song` (`r` is the `random.choice` pick): `one_loop`
replays the current song; `loop` wraps from the `==`-last song to
`_songs[0]`, else takes `_songs[index(current) + 1]`; `sequential`
evaluates the nonexistent attribute `self.signal_playlist_finished`,
raising `AttributeError` before anything reaches the queue. -/
def Player.get_next_song (pl : Player) (r : SongModel) :
    Except PyErr SongOrIndex :=
  if pl.songs.isEmpty then Except.ok SongOrIndex.noSong
  else if pl.playbackMode = PlaybackMode.one_loop then
    Except.ok (match pl.currentSong with
      | none => SongOrIndex.noSong
      | some s => SongOrIndex.song s)
  else if pl.playbackMode = PlaybackMode.loop then
    if pl.currentSong = pyGet pl.songs (-1) then
      match pyGet pl.songs 0 with
      | some s => Except.ok (SongOrIndex.song s)
      | none => Except.error PyErr.indexError
    else
      match pl.currentSong with
      | none => Except.error PyErr.valueError
      | some cur =>
        match pyIndexOf pl.songs cur with
        | none => Except.error PyErr.valueError
        | some ci =>
          match pyGet pl.songs ((ci : Int) + 1) with
          | some s => Except.ok (SongOrIndex.song s)
          | none => Except.error PyErr.indexError
  else if pl.playbackMode = PlaybackMode.sequential then
    Except.error PyErr.attributeError
  else Except.ok (SongOrIndex.song r)

/-- `Player.get_previous_song`: `one_loop` replays the current song;
`loop` returns `_songs[-1]` from index 0 but the bare integer
`current_index - 1` from any later index; `sequential` returns `None`;
`random` picks `r`. -/
def Player.get_previous_song (pl : Player) (r : SongModel) :
    Except PyErr SongOrIndex :=
  if pl.songs.isEmpty then Except.ok SongOrIndex.noSong
  else if pl.playbackMode = PlaybackMode.one_loop then
    Except.ok (match pl.currentSong with
      | none => SongOrIndex.noSong
      | some s => SongOrIndex.song s)
  else if pl.playbackMode = PlaybackMode.loop then
    match pl.currentSong with
    | none => Except.error PyErr.valueError
    | some cur =>
      match pyIndexOf pl.songs cur with
      | none => Except.error PyErr.valueError
      | some ci =>
        if ci = 0 then
          match pyGet pl.songs (-1) with
          | some s => Except.ok (SongOrIndex.song s)
          | none => Except.error PyErr.indexError
        else Except.ok (SongOrIndex.index ((ci : Int) - 1))
  else if pl.playbackMode = PlaybackMode.sequential then
    Except.ok SongOrIndex.noSong
  else Except.ok (SongOrIndex.song r)

/-- `Player.play_next`: play whatever `get_next_song` yields unless it
is `None`. Passing a bare integer to `play_song` evaluates `.url` on an
`int`, raising `AttributeError` before any mutation. -/
def Player.play_next (pl : Player) (r : SongModel) : Except PyErr Player :=
  match pl.get_next_song r with
  | Except.error e => Except.error e
  | Except.ok SongOrIndex.noSong => Except.ok pl
  | Except.ok (SongOrIndex.song s) => pl.play_song s
  | Except.ok (SongOrIndex.index _) => Except.error PyErr.attributeError

/-- `Player.play_last`: play whatever `get_previous_song` yields unless
it is `None`; a bare integer result makes `play_song` raise
`AttributeError` on `.url`. -/
def Player.play_last (pl : Player) (r : SongModel) : Except PyErr Player :=
  match pl.get_previous_song r with
  | Except.error e => Except.error e
  | Except.ok SongOrIndex.noSong => Except.ok pl
  | Except.ok (SongOrIndex.song s) => pl.play_song s
  | Except.ok (SongOrIndex.index _) => Except.error PyErr.attributeError

/-- `Player.__init__` runs `self.finished.connect(self.play_next)`: the
handler of the `finished` signal is `play_next`. -/
def Player.onFinished (pl : Player) (r : SongModel) : Except PyErr Player :=
  pl.play_next r

/-- Python `str.split(sep)` for a one-character separator, on strings
modelled as character lists. -/
def splitOnChar (sep : Char) : List Char → List (List Char)
  | [] => [[]]
  | c :: cs =>
    let r := splitOnChar sep cs
    if c = sep then [] :: r
    else match r with
      | [] => [[c]]
      | w :: ws => (c :: w) :: ws

/-- Decimal digit accumulator for `int(...)`. -/
def parseNatCore : List Char → Nat → Option Nat
  | [], acc => some acc
  | c :: cs, acc =>
    if c.isDigit then parseNatCore cs (acc * 10 + (c.toNat - 48))
    else none

/-- Python `int(s)` on a non-negative decimal field (`ValueError` on
anything else). -/
def parseNatQ (l : List Char) : Option Nat :=
  if l.isEmpty then none else parseNatCore l 0

/-- Python `float(s)` on a non-negative decimal field, exactly, as a
rational (`ValueError` on anything else). -/
def parseDecQ (l : List Char) : Option ℚ :=
  match splitOnChar '.' l with
  | [a] => (parseNatQ a).map (fun n => (n : ℚ))
  | [a, b] =>
    match parseNatQ a, parseNatQ b with
    | some ia, some ib =>
      some (mkRat (Int.ofNat (ia * 10 ^ b.length + ib)) (10 ^ b.length))
    | _, _ => none
  | _ => none

/-- Whether the read loop continues to the next line or leaves
(`break`). -/
inductive CapFlow where
  | cont
  | brk
deriving DecidableEq

/-- One iteration of `Player._capture_stdout` on a status line (the
string is modelled as its character list): `@F` parses
`framecount frame_left seconds seconds_left`, stores the position, the
duration when `framecount == 0`, sets `playing` and queues
`position_changed`; `@P 0` sets `stopped`, zeroes duration and
position, queues `finished` and breaks the loop; `@P 1` sets `paused`;
any other `@P` digit sets `playing`; `@E` and unknown prefixes only
log. -/
def Player.captureLine (pl : Player) (line : List Char) :
    Except PyErr (Player × CapFlow) :=
  let flag := line.take 2
  if flag = ['@', 'F'] then
    match splitOnChar ' ' (line.drop 3) with
    | [framecount, _frameLeft, sec, secLeft] =>
      match parseDecQ sec with
      | none => Except.error PyErr.valueError
      | some pos =>
        let pl1 : Player := { pl with position := pos }
        match parseNatQ framecount with
        | none => Except.error PyErr.valueError
        | some fc =>
          if fc = 0 then
            match parseDecQ secLeft with
            | none => Except.error PyErr.valueError
            | some d =>
              let pl2 : Player := { pl1 with duration := d }
              let pl3 := pl2.set_state State.playing
              Except.ok
                ({ pl3 with
                    signalQueue := pl3.signalQueue ++ [Sig.positionChanged] },
                  CapFlow.cont)
          else
            let pl3 := pl1.set_state State.playing
            Except.ok
              ({ pl3 with
                  signalQueue := pl3.signalQueue ++ [Sig.positionChanged] },
                CapFlow.cont)
    | _ => Except.error PyErr.valueError
  else if flag = ['@', 'P'] then
    let a := (line.drop 3).take 1
    if a = ['0'] then
      let pl1 := pl.set_state State.stopped
      let pl2 : Player := { pl1 with
          duration := 0
          position := 0 }
      Except.ok
        ({ pl2 with signalQueue := pl2.signalQueue ++ [Sig.finished] },
          CapFlow.brk)
    else if a = ['1'] then
      Except.ok (pl.set_state State.paused, CapFlow.cont)
    else
      Except.ok (pl.set_state State.playing, CapFlow.cont)
  else
    Except.ok (pl, CapFlow.cont)

/-- Run the `_capture_stdout` loop over a list of status lines,
stopping at a `break` or an escaped exception. -/
def Player.captureLines (pl : Player) : List (List Char) → Except PyErr Player
  | [] => Except.ok pl
  | l :: ls =>
    match pl.captureLine l with
    | Except.error e => Except.error e
    | Except.ok (pl1, CapFlow.brk) => Except.ok pl1
    | Except.ok (pl1, CapFlow.cont) => pl1.captureLines ls

/-- Sequential playlist of two tracks with the cursor on the last
index. -/
def c1Pl : Playlist := ⟨none, some 1, none, [sA, sB], PlaybackMode.sequential, 0⟩

/-- Sequential-mode player holding two tracks. -/
def c1Player : Player :=
  { playerInit with
      playbackMode := PlaybackMode.sequential
      songs := [sA, sB]
      currentSong := some sA }

/-- One-track loop playlist with the cursor on its only (hence last)
index. -/
def singletonLoop : Playlist := ⟨none, some 0, none, [sA], PlaybackMode.loop, 0⟩

/-- The `[A, B, C]` loop playlist with the cursor on `C`. -/
def abcLoop : Playlist := ⟨none, some 2, none, [sA, sB, sC], PlaybackMode.loop, 0⟩

/-- Loop-mode player with songs `[A, B, C]`, currently on `C`. -/
def abcPlayer : Player :=
  { playerInit with
      songs := [sA, sB, sC]
      currentSong := some sC }

/-- Two-track loop playlist with the cursor on index 0. -/
def abLoop : Playlist := ⟨none, some 0, none, [sA, sB], PlaybackMode.loop, 0⟩

/-- Three-track loop playlist with the cursor on index 1. -/
def c4Pl : Playlist := ⟨none, some 1, none, [sA, sB, sC], PlaybackMode.loop, 0⟩

/-- A track whose identifier collides with `songX1` across sources. -/
def songN1 : SongModel := ⟨"netease", "42", "fuo://netease/songs/42"⟩

/-- Same identifier as `songN1`, different source and url. -/
def songX1 : SongModel := ⟨"xiami", "42", "fuo://xiami/songs/42"⟩

/-- Player already holding `songN1`. -/
def dupPlayer : Player := { playerInit with songs := [songN1] }

/-- Loop playlist `[A, B, C]` with the cursor on index 0, about to be
jumped by the `current_song` setter. -/
def c6Pl : Playlist := ⟨none, some 0, none, [sA, sB, sC], PlaybackMode.loop, 0⟩

/-- A player whose committed state is `playing`, about to see paused
status lines. -/
def doublePausedPl : Player :=
  { playerInit with
      state := State.playing
      lastState := State.playing }

/-- Playing loop-mode player on track `A` of `[A, B]`, whose stdout is
about to report status lines. -/
def c8Player : Player :=
  { playerInit with
      songs := [sA, sB]
      currentSong := some sA
      state := State.playing
      lastState := State.playing }

/-- `c8Player` after the read loop consumed `@P 0`. -/
def c8AfterStop : Player :=
  { c8Player with
      state := State.stopped
      lastState := State.stopped
      duration := 0
      position := 0
      signalQueue := [Sig.stateChanged, Sig.finished] }

/-- Two-track non-random playlist with the cursor at index 0 and no
remembered last index. -/
def c9Pl : Playlist := ⟨none, some 0, none, [sA, sB], PlaybackMode.loop, 0⟩

/-- Loop-mode player currently on the track at index 1. -/
def c10Player : Player :=
  { playerInit with
      songs := [sA, sB]
      currentSong := some sB }

theorem pyGet_isNone_false {α : Type} (xs : List α) (i : Int)
    (h0 : 0 ≤ i) (h1 : i < (xs.length : Int)) :
    (pyGet xs i).isNone = false := by
  unfold pyGet
  rw [if_pos h0]
  have ht : i.toNat < xs.length := by omega
  rw [List.get?_eq_get ht]
  rfl

theorem pyGet_neg_one {α : Type} (xs : List α) (hne : xs ≠ []) :
    pyGet xs (-1) = some (xs.getLast hne) := by
  unfold pyGet
  have hlen : 1 ≤ xs.length := List.length_pos.mpr hne
  rw [if_neg (by omega), if_pos (by omega)]
  have ht : ((-1) + (xs.length : Int)).toNat = xs.length - 1 := by omega
  rw [ht, ← List.getLast?_eq_get?, List.getLast?_eq_getLast xs hne]

theorem set_current_keeps_lastIndex (p : Playlist) (s : SongModel) :
    (p.set_current s).st.lastIndex = p.lastIndex := by
  unfold Playlist.set_current
  dsimp only
  split <;> rfl

theorem loop_next_step (p : Playlist) (r : Int) (i : Int)
    (hm : p.playbackMode = PlaybackMode.one_loop ∨
          p.playbackMode = PlaybackMode.loop)
    (hc : p.currentIndex = some i)
    (h0 : 0 ≤ i) (hlt : i < (p.songs.length : Int)) :
    p.next r =
      ⟨{ p with
          currentIndex :=
            some ((if i = (p.songs.length : Int) - 1 then 0 else i) + 1)
          songChangedEmits := p.songChangedEmits + 1 }, none⟩ := by
  have hne : p.songs.isEmpty = false := by
    cases hs : p.songs with
    | nil => rw [hs] at hlt; simp at hlt; omega
    | cons a l => rfl
  have hg := pyGet_isNone_false p.songs i h0 hlt
  unfold Playlist.next
  rcases hm with h | h <;> simp [hne, hc, hg, h]

theorem loop_nextIter_index (r : Int) (k : Nat) :
    ∀ (p : Playlist) (i : Int),
      p.playbackMode = PlaybackMode.loop →
      p.currentIndex = some i →
      2 ≤ p.songs.length →
      1 ≤ i → i ≤ (p.songs.length : Int) - 1 →
      (nextIter r k p).err = none ∧
      (nextIter r k p).st.songs = p.songs ∧
      (nextIter r k p).st.playbackMode = PlaybackMode.loop ∧
      (nextIter r k p).st.currentIndex =
        some (1 + (i - 1 + (k : Int)) % ((p.songs.length : Int) - 1)) := by
  induction k with
  | zero =>
    intro p i hm hc h2 h1 hle
    refine ⟨rfl, rfl, hm, ?_⟩
    show p.currentIndex = _
    rw [hc]
    refine congrArg some ?_
    rw [Nat.cast_zero, add_zero, Int.emod_eq_of_lt (by omega) (by omega)]
    omega
  | succ k ih =>
    intro p i hm hc h2 h1 hle
    have hstep := loop_next_step p r i (Or.inr hm) hc (by omega) (by omega)
    have hunf : nextIter r (k + 1) p =
        nextIter r k
          { p with
              currentIndex :=
                some ((if i = (p.songs.length : Int) - 1 then 0 else i) + 1)
              songChangedEmits := p.songChangedEmits + 1 } := by
      have hdef : nextIter r (k + 1) p =
          (match (p.next r).err with
            | some e => (⟨(p.next r).st, some e⟩ : PyOutcome)
            | none => nextIter r k (p.next r).st) := rfl
      rw [hdef, hstep]
    obtain ⟨e1, e2, e3, e4⟩ := ih
      { p with
          currentIndex :=
            some ((if i = (p.songs.length : Int) - 1 then 0 else i) + 1)
          songChangedEmits := p.songChangedEmits + 1 }
      ((if i = (p.songs.length : Int) - 1 then 0 else i) + 1)
      hm rfl h2 (by split <;> omega) (by dsimp only; split <;> omega)
    rw [hunf]
    refine ⟨e1, e2, e3, ?_⟩
    rw [e4]
    dsimp only
    simp only [Option.some.injEq, add_right_inj]
    by_cases hlast : i = (p.songs.length : Int) - 1
    · rw [if_pos hlast]
      have hl : (0 : Int) + 1 - 1 + (k : Int) = (k : Int) := by omega
      have hr : i - 1 + ((k + 1 : Nat) : Int) =
          (k : Int) + ((p.songs.length : Int) - 1) := by omega
      rw [hl, hr]
      rw [show (k : Int) + ((p.songs.length : Int) - 1) =
          (k : Int) + ((p.songs.length : Int) - 1) * 1 by ring]
      rw [Int.add_mul_emod_self_left]
    · rw [if_neg hlast]
      have hl : i + 1 - 1 + (k : Int) = i - 1 + ((k + 1 : Nat) : Int) := by
        omega
      rw [hl]

/-- C1: advancing a non-empty sequential playlist from its last index
does not leave an absent cursor and raise `playlist_finished`; instead
`Playlist.next` raises `TypeError` (after nulling the cursor, emitting
no `song_changed`), and `Player.get_next_song` in sequential mode
raises `AttributeError` on the nonexistent
`signal_playlist_finished` attribute, so `play_next` crashes before
starting any playback and nothing is ever queued. -/
theorem seq_exhaustion_crashes :
    (c1Pl.next 0).st.currentIndex = none ∧
    (c1Pl.next 0).err = some PyErr.typeError ∧
    (c1Pl.next 0).st.songChangedEmits = c1Pl.songChangedEmits ∧
    c1Player.get_next_song sA = Except.error PyErr.attributeError ∧
    c1Player.play_next sA = Except.error PyErr.attributeError := by
  decide

/-- C2 counterexample: in a length-1 loop playlist with the cursor on
the last index, advance lands the cursor on index 1, not on index 0 as
the claim asserts for length 1. -/
theorem loop_singleton_advance_cex :
    singletonLoop.songs.length = 1 ∧
    singletonLoop.playbackMode = PlaybackMode.loop ∧
    singletonLoop.currentIndex =
      some ((singletonLoop.songs.length : Int) - 1) ∧
    (singletonLoop.next 0).st.currentIndex = some 1 ∧
    ¬ ((singletonLoop.next 0).st.currentIndex = some 0) := by decide

/-- C2 (amended): advancing a non-empty `one_loop`/`loop` playlist from
the last index always lands the cursor on index 1 (wrap to 0, then
unconditional increment), for every list length; when the length is 1
that index is out of range and reading `current_song` afterwards raises
`IndexError`. -/
theorem advance_from_last_lands_index_one (p : Playlist) (r : Int)
    (hm : p.playbackMode = PlaybackMode.one_loop ∨
          p.playbackMode = PlaybackMode.loop)
    (hne : p.songs ≠ [])
    (hc : p.currentIndex = some ((p.songs.length : Int) - 1)) :
    (p.next r).err = none ∧
    (p.next r).st.currentIndex = some 1 ∧
    (p.songs.length = 1 →
      (p.next r).st.current_song = Except.error PyErr.indexError) := by
  have hlen : 0 < p.songs.length := List.length_pos.mpr hne
  have hstep := loop_next_step p r ((p.songs.length : Int) - 1) hm hc
    (by omega) (by omega)
  rw [hstep]
  refine ⟨rfl, ?_, ?_⟩
  · dsimp only
    rw [if_pos rfl, zero_add]
  · intro h1
    show Playlist.current_song _ = _
    unfold Playlist.current_song
    dsimp only
    rw [if_pos rfl, zero_add]
    have hg : pyGet p.songs 1 = none := by
      unfold pyGet
      rw [if_pos (by omega)]
      exact List.get?_eq_none.mpr (by omega)
    rw [hg]

/-- C2 witness: the amended statement evaluated on the one-track loop
playlist. -/
theorem advance_from_last_lands_index_one_witness :
    (singletonLoop.next 0).err = none ∧
    (singletonLoop.next 0).st.currentIndex = some 1 ∧
    (singletonLoop.songs.length = 1 →
      (singletonLoop.next 0).st.current_song =
        Except.error PyErr.indexError) :=
  advance_from_last_lands_index_one singletonLoop 0 (Or.inr rfl)
    (by decide) (by decide)

/-- C3 counterexample: on `[A, B, C]` in loop mode with the cursor on
`C`, one advance puts the cursor on index 1 (`B`), not on index 0 (`A`)
as claimed. -/
theorem abc_loop_advance_cex :
    abcLoop.songs = [sA, sB, sC] ∧
    abcLoop.playbackMode = PlaybackMode.loop ∧
    abcLoop.currentIndex = some 2 ∧
    abcLoop.current_song = Except.ok (some sC) ∧
    (abcLoop.next 0).st.currentIndex = some 1 ∧
    ¬ ((abcLoop.next 0).st.currentIndex = some 0) := by decide

/-- C3 (amended): on `[A, B, C]` in loop mode with the cursor on `C`, a
single `Playlist.next` moves the cursor to index 1, i.e. track `B`
(wrap to 0, then increment); the separate `Player.get_next_song`, which
compares against `_songs[-1]` instead, would return track `A`. -/
theorem abc_loop_advance_lands_on_b :
    (abcLoop.next 0).err = none ∧
    (abcLoop.next 0).st.currentIndex = some 1 ∧
    (abcLoop.next 0).st.current_song = Except.ok (some sB) ∧
    abcPlayer.get_next_song sA = Except.ok (SongOrIndex.song sA) := by
  decide

/-- C4 counterexample: on the loop playlist `[A, B]` starting at index
0 (track `A`), two advances (the list length) leave the cursor on index
1 (track `B`), not back on the starting track. -/
theorem loop_len_advances_cex :
    abLoop.songs.length = 2 ∧
    abLoop.playbackMode = PlaybackMode.loop ∧
    abLoop.current_song = Except.ok (some sA) ∧
    (nextIter 0 2 abLoop).err = none ∧
    (nextIter 0 2 abLoop).st.currentIndex = some 1 ∧
    (nextIter 0 2 abLoop).st.current_song = Except.ok (some sB) ∧
    ¬ ((nextIter 0 2 abLoop).st.currentIndex = abLoop.currentIndex) := by
  decide

/-- C4 (amended): in loop mode the advance orbit has period
`len - 1`, not `len`: for every starting index `i` with
`1 ≤ i ≤ len - 1`, calling advance exactly `len - 1` times returns the
cursor (and hence the current track) to where it started; index 0 is
unreachable after the first advance, so the claimed `len`-step cycle
fails from index 0. -/
theorem loop_len_minus_one_advances_return (p : Playlist) (r : Int)
    (i : Int)
    (hm : p.playbackMode = PlaybackMode.loop)
    (hc : p.currentIndex = some i)
    (h1 : 1 ≤ i) (hle : i ≤ (p.songs.length : Int) - 1) :
    (nextIter r (p.songs.length - 1) p).err = none ∧
    (nextIter r (p.songs.length - 1) p).st.songs = p.songs ∧
    (nextIter r (p.songs.length - 1) p).st.currentIndex =
      p.currentIndex ∧
    (nextIter r (p.songs.length - 1) p).st.current_song =
      p.current_song := by
  have h2 : 2 ≤ p.songs.length := by omega
  obtain ⟨e1, e2, e3, e4⟩ :=
    loop_nextIter_index r (p.songs.length - 1) p i hm hc h2 h1 hle
  have hidx : (nextIter r (p.songs.length - 1) p).st.currentIndex =
      p.currentIndex := by
    rw [e4, hc]
    refine congrArg some ?_
    have hcast : ((p.songs.length - 1 : Nat) : Int) =
        (p.songs.length : Int) - 1 := by omega
    rw [hcast]
    rw [show i - 1 + ((p.songs.length : Int) - 1) =
        i - 1 + ((p.songs.length : Int) - 1) * 1 by ring]
    rw [Int.add_mul_emod_self_left]
    rw [Int.emod_eq_of_lt (by omega) (by omega)]
    omega
  refine ⟨e1, e2, hidx, ?_⟩
  unfold Playlist.current_song
  rw [hidx, e2]

/-- C4 witness: the amended cycle statement evaluated on `[A, B, C]`
starting at index 1 (two advances return to index 1). -/
theorem loop_len_minus_one_advances_return_witness :
    (nextIter 0 (c4Pl.songs.length - 1) c4Pl).err = none ∧
    (nextIter 0 (c4Pl.songs.length - 1) c4Pl).st.songs = c4Pl.songs ∧
    (nextIter 0 (c4Pl.songs.length - 1) c4Pl).st.currentIndex =
      c4Pl.currentIndex ∧
    (nextIter 0 (c4Pl.songs.length - 1) c4Pl).st.current_song =
      c4Pl.current_song :=
  loop_len_minus_one_advances_return c4Pl 0 1 rfl rfl (by decide)
    (by decide)

/-- C5 counterexample: two tracks with equal identifiers but different
sources are treated as the same track by the deduplication check:
`_get_song` reports the incoming track as already present and
`add_song` refuses to add it, so equality is not by the
(source, identifier) pair. -/
theorem dedup_ignores_source_cex :
    songN1.identifier = songX1.identifier ∧
    songN1.source ≠ songX1.source ∧
    dupPlayer.songs = [songN1] ∧
    dupPlayer.get_song songX1 = some songX1 ∧
    dupPlayer.add_song songX1 false = Except.ok (dupPlayer, false) := by
  decide

/-- C5 (amended): the deduplication check behind `add_song` treats two
tracks as equal exactly when their identifiers are equal, ignoring the
source (and every other field): `_get_song` finds a hit precisely when
some stored track shares the identifier, and `add_song` appends
precisely when none does. -/
theorem dedup_by_identifier_only (pl : Player) (song : SongModel) :
    ((pl.get_song song).isSome ↔
      ∃ m ∈ pl.songs, song.identifier = m.identifier) ∧
    (pl.add_song song false =
      if pl.songs.any (fun m => song.identifier = m.identifier)
      then Except.ok (pl, false)
      else Except.ok ({ pl with songs := pl.songs ++ [song] }, true)) := by
  constructor
  · unfold Player.get_song
    by_cases h : pl.songs.any (fun m => song.identifier = m.identifier)
    · rw [if_pos h]
      simp only [Option.isSome_some, true_iff]
      rw [List.any_eq_true] at h
      simpa using h
    · rw [if_neg h]
      simp only [Option.isSome_none, Bool.false_eq_true, false_iff]
      intro hex
      apply h
      rw [List.any_eq_true]
      simpa using hex
  · unfold Player.add_song Player.get_song
    by_cases h : pl.songs.any (fun m => song.identifier = m.identifier) <;>
      simp [h]

/-- C6: the `current_song` setter only stores the dead `_last_song`
attribute and never writes `_last_index`, so after jumping the cursor
from index 0 to track `C` (index 2) of `[A, B, C]`, `previous()` finds
no remembered index and merely decrements, landing on index 1 (`B`)
instead of returning to index 0 (`A`) — though it does emit
`song_changed`. -/
theorem last_index_never_written :
    (∀ (p : Playlist) (s : SongModel),
      (p.set_current s).st.lastIndex = p.lastIndex) ∧
    (c6Pl.set_current sC).err = none ∧
    (c6Pl.set_current sC).st.currentIndex = some 2 ∧
    (c6Pl.set_current sC).st.lastIndex = none ∧
    ((c6Pl.set_current sC).st.previous 0).currentIndex = some 1 ∧
    ¬ (((c6Pl.set_current sC).st.previous 0).currentIndex = some 0) ∧
    ((c6Pl.set_current sC).st.previous 0).songChangedEmits =
      (c6Pl.set_current sC).st.songChangedEmits + 1 :=
  ⟨set_current_keeps_lastIndex, by decide, by decide, by decide,
    by decide, by decide, by decide⟩

/-- C7: `set_state` always commits the state value but enqueues
`state_changed` (updating the committed `_last_state`) exactly when the
new value differs from `_last_state`; concretely, a playing player that
reads `@P 1` twice enqueues exactly one `state_changed`. -/
theorem state_changed_iff_distinct :
    (∀ (pl : Player) (s : State),
      (pl.set_state s).state = s ∧
      (pl.set_state s).lastState = s ∧
      (pl.set_state s).signalQueue =
        pl.signalQueue ++
          (if pl.lastState = s then [] else [Sig.stateChanged])) ∧
    doublePausedPl.captureLines ["@P 1".data, "@P 1".data] =
      Except.ok { doublePausedPl with
          state := State.paused
          lastState := State.paused
          signalQueue := [Sig.stateChanged] } := by
  constructor
  · intro pl s
    by_cases h : pl.lastState = s <;> simp [Player.set_state, h]
  · decide

/-- C8: parsing `@F 0 123 0.00 30.00` sets position `0.00`, duration
`30.00` and state `playing`; parsing `@P 0` zeroes position and
duration, sets state `stopped`, enqueues `finished` (after the
`state_changed` for the transition) and breaks the read loop, ignoring
later lines; the `finished` handler installed by `__init__`
(`play_next`) then loads and makes current the playlist's next track
`B`. -/
theorem status_line_parse_effects :
    (c8Player.captureLine "@F 0 123 0.00 30.00".data).map
        (fun q : Player × CapFlow =>
          (q.1.position, q.1.duration, q.1.state, q.2)) =
      Except.ok ((0 : ℚ), (30 : ℚ), State.playing, CapFlow.cont) ∧
    c8Player.captureLine "@P 0".data =
      Except.ok (c8AfterStop, CapFlow.brk) ∧
    c8Player.captureLines ["@P 0".data, "@F 0 123 0.00 30.00".data] =
      c8Player.captureLines ["@P 0".data] ∧
    (c8AfterStop.onFinished sA).map
        (fun q : Player => (q.loadedUrl, q.currentSong)) =
      Except.ok (some sB.url, some sB) := by
  decide

/-- C9: on a non-empty non-random playlist with the cursor at index 0
and no remembered last index, `previous()` decrements the cursor to
`-1` without error, and `current_song` then resolves `_songs[-1]` by
Python negative indexing to the last track rather than failing or
returning `None`. -/
theorem previous_at_zero_goes_to_minus_one (p : Playlist) (r : Int)
    (hne : p.songs ≠ [])
    (hc : p.currentIndex = some 0)
    (hl : p.lastIndex = none)
    (hm : p.playbackMode ≠ PlaybackMode.random) :
    (p.previous r).currentIndex = some (-1) ∧
    (p.previous r).current_song =
      Except.ok (some (p.songs.getLast hne)) ∧
    (p.previous r).songChangedEmits = p.songChangedEmits + 1 := by
  have hE : p.songs.isEmpty = false := by
    cases hs : p.songs with
    | nil => exact absurd hs hne
    | cons a l => rfl
  have hprev : p.previous r =
      { p with
          currentIndex := some (-1)
          songChangedEmits := p.songChangedEmits + 1 } := by
    unfold Playlist.previous
    simp [hE, hl, hc, hm]
  rw [hprev]
  refine ⟨rfl, ?_, rfl⟩
  unfold Playlist.current_song
  dsimp only
  rw [pyGet_neg_one p.songs hne]

/-- C9 witness: the statement evaluated on the two-track loop playlist
`[A, B]` with the cursor at 0. -/
theorem previous_at_zero_goes_to_minus_one_witness :
    (c9Pl.previous 0).currentIndex = some (-1) ∧
    (c9Pl.previous 0).current_song = Except.ok (some sB) ∧
    (c9Pl.previous 0).songChangedEmits = c9Pl.songChangedEmits + 1 := by
  have h := previous_at_zero_goes_to_minus_one c9Pl 0 (by decide) rfl rfl
    (by decide)
  refine ⟨h.1, ?_, h.2.2⟩
  rw [h.2.1]
  decide

/-- C10: in loop mode with the current song at a positive index `i`,
`get_previous_song` returns the bare integer `i - 1` instead of the
track at index `i - 1`, and `play_last` consequently raises
`AttributeError` (reading `.url` off an `int`) instead of playing the
preceding track. -/
theorem get_previous_song_returns_bare_index (pl : Player)
    (r cur : SongModel) (i : Nat)
    (hm : pl.playbackMode = PlaybackMode.loop)
    (hc : pl.currentSong = some cur)
    (hi : pyIndexOf pl.songs cur = some i)
    (h0 : 0 < i) :
    pl.get_previous_song r =
      Except.ok (SongOrIndex.index ((i : Int) - 1)) ∧
    pl.play_last r = Except.error PyErr.attributeError := by
  have hne : pl.songs.isEmpty = false := by
    cases hs : pl.songs with
    | nil => rw [hs] at hi; exact absurd hi (by simp [pyIndexOf])
    | cons a l => rfl
  have hprev : pl.get_previous_song r =
      Except.ok (SongOrIndex.index ((i : Int) - 1)) := by
    unfold Player.get_previous_song
    simp [hne, hm, hc, hi, Nat.pos_iff_ne_zero.mp h0]
  refine ⟨hprev, ?_⟩
  unfold Player.play_last
  rw [hprev]

/-- C10 witness: the statement evaluated on a loop-mode player sitting
on index 1 of `[A, B]`. -/
theorem get_previous_song_returns_bare_index_witness :
    c10Player.get_previous_song sA =
      Except.ok (SongOrIndex.index (((1 : Nat) : Int) - 1)) ∧
    c10Player.play_last sA = Except.error PyErr.attributeError :=
  get_previous_song_returns_bare_index c10Player sA sB 1 rfl rfl
    (by decide) (by decide)
